import Mathlib

/-!
Verification of the parameter-validation and query-construction engine of the
`ebay` Go package (eBay Finding API client).

The definitions below are a shallow embedding of the Go source:

* `filter.go` — aspect and item filter extraction and the per-filter-type
  validation rules (`processItemFilters`, `handleItemFilterType`, …);
* the operation parameter builders — the per-operation `validate`
  methods, category-ID, keyword, product-ID and store-name validation, shared
  optional-field validation (`processAffiliate`, `processPaginationInput`,
  `validateSortOrder`, …), and the item-filter serialization loop of
  `newRequest`.

Modelling conventions:
* Go map request parameters become an association list
  `Params` read through `getParam` (first binding wins, mirroring map lookup).
* Go's unbounded index-probing loops (key(0), key(1), … until a key is
  missing) are embedded with an explicit fuel argument; `params.length + 1`
  fuel always suffices because the loop stops at the first index whose key is
  absent and a list of `n` bindings holds at most `n` distinct keys.
* Errors become the inductive `Err`; a constructor per distinct error value of
  the source, carrying the dynamic detail the Go error wraps where relevant.
* Go `string` length (`len`, bytes) is modelled by `goLen` (UTF-8 byte count);
  rune iteration is modelled on `String.data`.
* `strconv.Atoi` is modelled by `goAtoi` (exact integer, no 64-bit range cap).
* `strconv.ParseFloat` on price strings is modelled exactly over `ℚ` by
  `goParseFloat` (decimal and exponent forms; decimal values are represented
  exactly as rationals).
* `time.Now()` is threaded through as an explicit instant parameter `now`
  (Unix nanoseconds); `time.Parse(time.RFC3339, ·)` is modelled by
  `parseRFC3339`, which implements the strict RFC 3339 grammar accepted by Go
  together with Go's range checks, and reports whether the timestamp's
  location is UTC (i.e. it used the `Z` suffix; an explicit numeric offset
  never compares pointer-equal to `time.UTC` in the source).
* `unicode.IsUpper` is modelled on the Latin range by `Char.isUpper`.
-/

namespace EbaySpec

/-- Raw request parameters: the Go `map[string]string`, as an association
list; `getParam` returns the first binding of a key. -/
abbrev Params := List (String × String)

def getParam (ps : Params) (k : String) : Option String :=
  (ps.find? (fun p => p.1 == k)).map (fun p => p.2)

def hasParam (ps : Params) (k : String) : Bool :=
  (getParam ps k).isSome

set_option maxHeartbeats 1600000 in
/-- The error values of the Go package, one constructor per distinct error
variable; constructors carry the wrapped dynamic detail where the source
attaches one via its error-formatting helper. -/
inductive Err where
  | categoryIDMissing
  | categoryIDKeywordsMissing
  | productIDMissing
  | categoryIDKeywordsStoreNameMissing
  | invalidIndexSyntax
  | maxCategoryIDs
  | invalidCategoryIDLength
  | invalidCategoryID (v : String)
  | keywordsMissing
  | invalidKeywordsLength
  | invalidKeywordLength
  | invalidProductIDLength
  | invalidISBNLength
  | invalidISBN
  | invalidUPCLength
  | invalidUPC
  | invalidEANLength
  | invalidEAN
  | unsupportedProductIDType (t : String)
  | invalidStoreNameLength
  | invalidStoreNameAmpersand
  | invalidGlobalID (g : String)
  | invalidBooleanValue (v : String)
  | buyerPostalCodeMissing
  | invalidOutputSelector
  | invalidCustomIDLength
  | incompleteAffiliateParams
  | invalidNetworkID (v : String)
  | invalidNetworkIDRange
  | invalidTrackingID (v : String)
  | invalidCampaignID
  | invalidPostalCode
  | invalidEntriesPerPage (v : String)
  | invalidEntriesPerPageRange
  | invalidPageNumber (v : String)
  | invalidPageNumberRange
  | auctionListingMissing
  | unsupportedSortOrderType
  | incompleteFilterNameOnly (attr : String)
  | incompleteItemFilterParam
  | unsupportedItemFilterType (n : String)
  | invalidCountryCode (v : String)
  | invalidCondition (v : String)
  | invalidCurrencyID (v : String)
  | invalidDateTime (v : String)
  | maxExcludeCategories
  | maxExcludeSellers
  | excludeSellerCannotBeUsedWithSellers
  | invalidIntegerParse (v : String)
  | invalidInteger (v : String) (lo : Int)
  | invalidNumericFilter (a b : String)
  | invalidExpeditedShippingType (v : String)
  | invalidAllListingType
  | invalidListingType (v : String)
  | duplicateListingType (v : String)
  | invalidAuctionListingTypes
  | maxDistanceMissing
  | maxLocatedIns
  | invalidPrice (v : String)
  | invalidPriceParamName (p : String)
  | invalidMaxPrice
  | maxSellers
  | sellerCannotBeUsedWithOtherSellers
  | multipleSellerBusinessTypes
  | invalidSellerBusinessType (v : String)
  | topRatedSellerCannotBeUsedWithSellers
  | invalidValueBoxInventory (v : String)
deriving Repr

/-- UTF-8 byte size of one character (Go rune encoding length). -/
def charSize (c : Char) : Nat :=
  if c.toNat < 128 then 1
  else if c.toNat < 2048 then 2
  else if c.toNat < 65536 then 3
  else 4

/-- UTF-8 byte length of a character list. -/
def byteLen (cs : List Char) : Nat :=
  (cs.map charSize).sum

/-- Go `len(s)` for a string: its UTF-8 byte count. -/
def goLen (s : String) : Nat := byteLen s.data

/-- Decimal digit value of a character, if it is a digit. -/
def digitVal (c : Char) : Option Nat :=
  if '0' ≤ c && c ≤ '9' then some (c.toNat - 48) else none

/-- Accumulate a digit run into a natural number; `none` on a non-digit or an
empty run. -/
def digitsToNat : List Char → Option Nat
  | [] => none
  | cs => go cs 0
where
  go : List Char → Nat → Option Nat
    | [], acc => some acc
    | c :: rest, acc =>
      match digitVal c with
      | some d => go rest (acc * 10 + d)
      | none => none

/-- Model of Go `strconv.Atoi`: optional sign followed by one or more digits
and nothing else.  (The 64-bit range error of the source is not modelled; all
inputs relevant here are small.) -/
def goAtoi (s : String) : Option Int :=
  match s.data with
  | [] => none
  | '+' :: rest => (digitsToNat rest).map (fun n => (n : Int))
  | '-' :: rest => (digitsToNat rest).map (fun n => -(n : Int))
  | cs => (digitsToNat cs).map (fun n => (n : Int))

/-- Split a character list at its leading digit run. -/
def spanDigits : List Char → List Char × List Char
  | [] => ([], [])
  | c :: rest =>
    if '0' ≤ c && c ≤ '9' then
      let (ds, r) := spanDigits rest
      (c :: ds, r)
    else ([], c :: rest)

/-- Digit-run value (the run may be empty, contributing 0). -/
def digitsValue (cs : List Char) : Nat :=
  cs.foldl (fun acc c => acc * 10 + (c.toNat - 48)) 0

/-- An exact decimal number: the value `num * 10 ^ exp`.  This represents
the decimal strings Go feeds to its float parser exactly (the price logic of
the source only ever compares parsed prices and tests their sign). -/
structure GoFloat where
  num : Int
  exp : Int
deriving DecidableEq, Repr

/-- `10 ^ n` over the integers, by structural recursion. -/
def pow10 : Nat → Int
  | 0 => 1
  | n + 1 => 10 * pow10 n

/-- Is the value negative?  (Sign of the mantissa.) -/
def GoFloat.isNeg (a : GoFloat) : Bool := a.num < 0

/-- Exact value comparison of two decimals: bring both to the smaller
exponent and compare mantissas. -/
def goFloatLt (a b : GoFloat) : Bool :=
  if a.exp ≤ b.exp then a.num < b.num * pow10 (b.exp - a.exp).toNat
  else a.num * pow10 (a.exp - b.exp).toNat < b.num

/-- Model of Go `strconv.ParseFloat` on the decimal forms
`[sign] digits [. digits] [ (e|E) [sign] digits ]` (at least one mantissa
digit required), returning the denoted value exactly.  The special forms
(`Inf`, `NaN`, hex floats) are not modelled; all price strings relevant
here are plain decimals, represented exactly. -/
def goParseFloat (s : String) : Option GoFloat :=
  match s.data with
  | [] => none
  | '+' :: rest => parseMantissa rest
  | '-' :: rest => (parseMantissa rest).map (fun d => ⟨-d.num, d.exp⟩)
  | cs => parseMantissa cs
where
  parseExp (mant : GoFloat) : List Char → Option GoFloat
    | [] => some mant
    | 'e' :: rest => parseSignedExp mant rest
    | 'E' :: rest => parseSignedExp mant rest
    | _ => none
  parseSignedExp (mant : GoFloat) : List Char → Option GoFloat
    | '+' :: rest => (digitsToNat rest).map (fun e => ⟨mant.num, mant.exp + e⟩)
    | '-' :: rest => (digitsToNat rest).map (fun e => ⟨mant.num, mant.exp - e⟩)
    | rest => (digitsToNat rest).map (fun e => ⟨mant.num, mant.exp + e⟩)
  parseMantissa (cs : List Char) : Option GoFloat :=
    let (ip, rest1) := spanDigits cs
    match rest1 with
    | '.' :: rest2 =>
      let (fp, rest3) := spanDigits rest2
      if ip.isEmpty && fp.isEmpty then none
      else parseExp ⟨(digitsValue (ip ++ fp) : Int), -(fp.length : Int)⟩ rest3
    | rest =>
      if ip.isEmpty then none
      else parseExp ⟨(digitsValue ip : Int), 0⟩ rest

/-- Gregorian leap-year rule (Go `isLeap`). -/
def isLeapYear (y : Nat) : Bool :=
  y % 4 == 0 && (y % 100 != 0 || y % 400 == 0)

/-- Days in a month (Go `daysIn`). -/
def daysInMonth (m : Nat) (y : Nat) : Nat :=
  if m == 2 then (if isLeapYear y then 29 else 28)
  else if m == 4 || m == 6 || m == 9 || m == 11 then 30
  else 31

/-- Days from the Unix epoch to the civil date `y-m-d` (proleptic Gregorian,
year in `[0,9999]` as guaranteed by the RFC 3339 parse).  Computed over `Nat`
with the year shifted by 400 to stay non-negative, then rebased. -/
def daysFromCivil (y m d : Nat) : Int :=
  let ys := y + 400
  let y' := if m ≤ 2 then ys - 1 else ys
  let era := y' / 400
  let yoe := y' - era * 400
  let mp := if m > 2 then m - 3 else m + 9
  let doy := (153 * mp + 2) / 5 + (d - 1)
  let doe := yoe * 365 + yoe / 4 - yoe / 100 + doy
  ((era * 146097 + doe : Nat) : Int) - 719468 - 146097

/-- Parse fractional seconds: if the input starts with `.` followed by a
digit, consume the whole digit run and return the nanosecond value (first
nine digits, right-padded) together with the rest; otherwise consume
nothing.  Mirrors the fractional-second handling of Go's RFC 3339 parse. -/
def parseFrac (cs : List Char) : Nat × List Char :=
  match cs with
  | '.' :: c :: rest =>
    if (digitVal c).isSome then
      let (ds, r) := spanDigits (c :: rest)
      let first9 := ds.take 9
      (digitsValue first9 * 10 ^ (9 - first9.length), r)
    else (0, cs)
  | _ => (0, cs)

/-- Model of Go `time.Parse(time.RFC3339, s)` combined with the
`Location() == time.UTC` test of `isValidDateTime`: returns the instant in
Unix nanoseconds together with whether the timestamp used the `Z` (UTC)
suffix.  Enforces Go's range checks (month 1–12, day within the month,
hour ≤ 23, minute/second ≤ 59, offset hour ≤ 23, offset minute ≤ 59). -/
def parseRFC3339 (s : String) : Option (Int × Bool) :=
  match s.data with
  | y1 :: y2 :: y3 :: y4 :: '-' :: m1 :: m2 :: '-' :: d1 :: d2 :: 'T' ::
    h1 :: h2 :: ':' :: mi1 :: mi2 :: ':' :: s1 :: s2 :: rest =>
    match digitVal y1, digitVal y2, digitVal y3, digitVal y4,
          digitVal m1, digitVal m2, digitVal d1, digitVal d2,
          digitVal h1, digitVal h2, digitVal mi1, digitVal mi2,
          digitVal s1, digitVal s2 with
    | some a, some b, some c, some d, some e, some f, some g, some h,
      some i, some j, some k, some l, some m, some n =>
      let year := ((a * 10 + b) * 10 + c) * 10 + d
      let month := e * 10 + f
      let day := g * 10 + h
      let hour := i * 10 + j
      let minute := k * 10 + l
      let second := m * 10 + n
      if month < 1 || month > 12 || day < 1 || day > daysInMonth month year ||
         hour > 23 || minute > 59 || second > 59 then none
      else
        let (nsec, rest') := parseFrac rest
        let base : Int :=
          daysFromCivil year month day * 86400 +
            ((hour * 3600 + minute * 60 + second : Nat) : Int)
        match rest' with
        | ['Z'] => some (base * 1000000000 + (nsec : Int), true)
        | [sg, z1, z2, ':', z3, z4] =>
          match digitVal z1, digitVal z2, digitVal z3, digitVal z4 with
          | some p, some q, some r, some t =>
            let zh := p * 10 + q
            let zm := r * 10 + t
            if (sg == '+' || sg == '-') && zh ≤ 23 && zm ≤ 59 then
              let off : Int := ((zh * 60 + zm) * 60 : Nat)
              let off := if sg == '-' then -off else off
              some ((base - off) * 1000000000 + (nsec : Int), false)
            else none
          | _, _, _, _ => none
        | _ => none
    | _, _, _, _, _, _, _, _, _, _, _, _, _, _ => none
  | _ => none

/-- `isValidDateTime` of `filter.go`: the value must parse as RFC 3339 with
UTC location; with `future` set it must not be before `now`, otherwise it
must not be after `now`. -/
def isValidDateTime (value : String) (future : Bool) (now : Int) : Bool :=
  match parseRFC3339 value with
  | none => false
  | some (t, isUTC) =>
    if !isUTC then false
    else if future && t < now then false
    else if !future && t > now then false
    else true

/-- One item filter (struct `itemFilter`): name, values, optional
`paramName` and `paramValue` (present together or not at all). -/
structure ItemFilter where
  name : String
  values : List String
  paramName : Option String := none
  paramValue : Option String := none
deriving DecidableEq, Repr

/-- One aspect filter (struct `aspectFilter`). -/
structure AspectFilter where
  aspectName : String
  aspectValueNames : List String
deriving DecidableEq, Repr

/-- Valid Currency ID values (`validCurrencyIDs`). -/
def validCurrencyIDs : List String :=
  ["AUD", "CAD", "CHF", "CNY", "EUR", "GBP", "HKD", "INR", "MYR", "PHP",
   "PLN", "SEK", "SGD", "TWD", "USD"]

/-- Valid condition IDs (`validConditionIDs`). -/
def validConditionIDs : List Int :=
  [1000, 1500, 1750, 2000, 2010, 2020, 2030, 2500, 2750, 3000, 4000, 5000, 6000, 7000]

/-- Valid listing types (`validListingTypes`). -/
def validListingTypes : List String :=
  ["Auction", "AuctionWithBIN", "Classified", "FixedPrice", "StoreInventory", "All"]

/-- Valid global IDs (`validGlobalIDs`). -/
def validGlobalIDs : List String :=
  ["EBAY-AT", "EBAY-AU", "EBAY-CH", "EBAY-DE", "EBAY-ENCA", "EBAY-ES",
   "EBAY-FR", "EBAY-FRBE", "EBAY-FRCA", "EBAY-GB", "EBAY-HK", "EBAY-IE",
   "EBAY-IN", "EBAY-IT", "EBAY-MOTOR", "EBAY-MY", "EBAY-NL", "EBAY-NLBE",
   "EBAY-PH", "EBAY-PL", "EBAY-SG", "EBAY-US"]

/-- Valid output selectors (`validOutputSelectors`). -/
def validOutputSelectors : List String :=
  ["AspectHistogram", "CategoryHistogram", "ConditionHistogram", "GalleryInfo",
   "PictureURLLarge", "PictureURLSuperSize", "SellerInfo", "StoreInfo",
   "UnitPriceInfo"]

/-- `isValidCountryCode`: byte length exactly 2 and every rune uppercase
(the uppercase test is modelled on the Latin range). -/
def isValidCountryCode (value : String) : Bool :=
  goLen value == 2 && value.data.all Char.isUpper

/-- `isValidCondition`: a numeric value must be a known condition ID; any
non-numeric value is accepted as a condition name. -/
def isValidCondition (value : String) : Bool :=
  match goAtoi value with
  | some cID => validConditionIDs.contains cID
  | none => true

/-- `isValidIntegerInRange`: parses as an integer that is at least `lo`. -/
def isValidIntegerInRange (value : String) (lo : Int) : Bool :=
  match goAtoi value with
  | some n => lo ≤ n
  | none => false

/-- `validateGlobalID`. -/
def validateGlobalID (globalID : String) : Except Err Unit :=
  if !validGlobalIDs.contains globalID then .error (.invalidGlobalID globalID)
  else .ok ()

/-- Per-value loop of `validateExcludeCategories`: each value must be an
integer that is at least `lo` (the first offender is reported). -/
def checkIntegersInRange (lo : Int) : List String → Except Err Unit
  | [] => .ok ()
  | v :: rest =>
    if isValidIntegerInRange v lo then checkIntegersInRange lo rest
    else .error (.invalidInteger v lo)

/-- `validateExcludeCategories`: at most 25 values, each a non-negative
integer. -/
def validateExcludeCategories (values : List String) : Except Err Unit :=
  if values.length > 25 then .error .maxExcludeCategories
  else checkIntegersInRange 0 values

/-- `validateExcludeSellers`: at most 100 values; mutually exclusive with the
Seller and TopRatedSellerOnly filters. -/
def validateExcludeSellers (values : List String) (fs : List ItemFilter) : Except Err Unit :=
  if values.length > 100 then .error .maxExcludeSellers
  else if fs.any (fun f => f.name == "Seller" || f.name == "TopRatedSellerOnly") then
    .error .excludeSellerCannotBeUsedWithSellers
  else .ok ()

/-- `validateSellers`: at most 100 values; mutually exclusive with the
ExcludeSeller and TopRatedSellerOnly filters. -/
def validateSellers (values : List String) (fs : List ItemFilter) : Except Err Unit :=
  if values.length > 100 then .error .maxSellers
  else if fs.any (fun f => f.name == "ExcludeSeller" || f.name == "TopRatedSellerOnly") then
    .error .sellerCannotBeUsedWithOtherSellers
  else .ok ()

/-- `validateTopRatedSellerOnly`: boolean value; mutually exclusive with the
Seller and ExcludeSeller filters. -/
def validateTopRatedSellerOnly (value : String) (fs : List ItemFilter) : Except Err Unit :=
  if value != "true" && value != "false" then .error (.invalidBooleanValue value)
  else if fs.any (fun f => f.name == "Seller" || f.name == "ExcludeSeller") then
    .error .topRatedSellerCannotBeUsedWithSellers
  else .ok ()

/-- `validateSellerBusinessType`: exactly one value, Business or Private. -/
def validateSellerBusinessType (values : List String) : Except Err Unit :=
  if values.length > 1 then .error .multipleSellerBusinessTypes
  else
    let v0 := values.headD ""
    if v0 != "Business" && v0 != "Private" then .error (.invalidSellerBusinessType v0)
    else .ok ()

/-- Per-value loop of `validateLocatedIns`. -/
def checkCountryCodes : List String → Except Err Unit
  | [] => .ok ()
  | v :: rest =>
    if isValidCountryCode v then checkCountryCodes rest
    else .error (.invalidCountryCode v)

/-- `validateLocatedIns`: at most 25 values, each a valid country code. -/
def validateLocatedIns (values : List String) : Except Err Unit :=
  if values.length > 25 then .error .maxLocatedIns
  else checkCountryCodes values

/-- `validateLocalSearchOnly`: requires a buyer postal code parameter and a
sibling MaxDistance filter; its own value must be boolean. -/
def validateLocalSearchOnly (values : List String) (fs : List ItemFilter)
    (ps : Params) : Except Err Unit :=
  if !(getParam ps "buyerPostalCode").isSome then .error .buyerPostalCodeMissing
  else if !(fs.any (fun f => f.name == "MaxDistance")) then .error .maxDistanceMissing
  else
    let v0 := values.headD ""
    if v0 != "true" && v0 != "false" then .error (.invalidBooleanValue v0)
    else .ok ()

/-- Value loop of `validateListingTypes`; `total` is the length of the whole
values list (Go tests the original list length in the All rule). -/
def listingTypesLoop (total : Nat) :
    List String → List String → Bool → Bool → Except Err Unit
  | [], _, _, _ => .ok ()
  | v :: rest, seen, hasAuction, hasAWBIN =>
    if v == "All" && total > 1 then .error .invalidAllListingType
    else
      let found := validListingTypes.contains v
      let hasAuction := hasAuction || v == "Auction"
      let hasAWBIN := hasAWBIN || v == "AuctionWithBIN"
      if !found then .error (.invalidListingType v)
      else if seen.contains v then .error (.duplicateListingType v)
      else if hasAuction && hasAWBIN then .error .invalidAuctionListingTypes
      else listingTypesLoop total rest (v :: seen) hasAuction hasAWBIN

/-- `validateListingTypes`. -/
def validateListingTypes (values : List String) : Except Err Unit :=
  listingTypesLoop values.length values [] false false

/-- Accumulating scan of `validateNumericFilter`: walks the filter list and
keeps the last parsed first-value of each of the two pair members, failing on
the first member whose first value is not an integer. -/
def numericPairLoop (filterA filterB : String) :
    List ItemFilter → Option Int → Option Int → Except Err (Option Int × Option Int)
  | [], a, b => .ok (a, b)
  | g :: rest, a, b =>
    if g.name == filterA then
      match goAtoi (g.values.headD "") with
      | none => .error (.invalidIntegerParse (g.values.headD ""))
      | some v => numericPairLoop filterA filterB rest (some v) b
    else if g.name == filterB then
      match goAtoi (g.values.headD "") with
      | none => .error (.invalidIntegerParse (g.values.headD ""))
      | some v => numericPairLoop filterA filterB rest a (some v)
    else numericPairLoop filterA filterB rest a b

/-- `validateNumericFilter`: the filter's first value must be an integer at
least `minAllowed`; when both pair members appear in the filter list, the
`filterA` (max) value must be at least the `filterB` (min) value. -/
def validateNumericFilter (f : ItemFilter) (fs : List ItemFilter)
    (minAllowed : Int) (filterA filterB : String) : Except Err Unit :=
  match goAtoi (f.values.headD "") with
  | none => .error (.invalidIntegerParse (f.values.headD ""))
  | some v =>
    if minAllowed > v then .error (.invalidInteger (f.values.headD "") minAllowed)
    else
      match numericPairLoop filterA filterB fs none none with
      | .error e => .error e
      | .ok (some av, some bv) =>
        if bv > av then .error (.invalidNumericFilter filterA filterB) else .ok ()
      | .ok _ => .ok ()

/-- `parsePrice`: the filter's first value must parse as a non-negative
price; an optional `paramName` must be Currency and an optional `paramValue`
must be a valid currency ID.  (The source tests that the minimum allowed
price 0.0 is not greater than the parsed price, i.e. that the price is not
negative.) -/
def parsePrice (f : ItemFilter) : Except Err GoFloat :=
  let v0 := f.values.headD ""
  match goParseFloat v0 with
  | none => .error (.invalidPrice v0)
  | some price =>
    if price.isNeg then .error (.invalidPrice v0)
    else if f.paramName.any (fun pn => pn != "Currency") then
      .error (.invalidPriceParamName (f.paramName.getD ""))
    else if f.paramValue.any (fun pv => !validCurrencyIDs.contains pv) then
      .error (.invalidCurrencyID (f.paramValue.getD ""))
    else .ok price

/-- Related-filter scan of `validatePriceRange`.  A MaxPrice filter fails
when its price is less than the related MinPrice, a MinPrice filter when its
price is greater than the related MaxPrice. -/
def priceRangeLoop (fname : String) (price : GoFloat) (related : String) :
    List ItemFilter → Except Err Unit
  | [] => .ok ()
  | g :: rest =>
    if g.name == related then
      match parsePrice g with
      | .error e => .error e
      | .ok relatedPrice =>
        if (fname == "MaxPrice" && goFloatLt price relatedPrice) ||
           (fname == "MinPrice" && goFloatLt relatedPrice price) then
          .error .invalidMaxPrice
        else priceRangeLoop fname price related rest
    else priceRangeLoop fname price related rest

/-- `validatePriceRange`: parse the filter's own price, then compare against
every member of the related price filter in the list. -/
def validatePriceRange (f : ItemFilter) (fs : List ItemFilter) : Except Err Unit :=
  match parsePrice f with
  | .error e => .error e
  | .ok price =>
    let related :=
      if f.name == "MaxPrice" then "MinPrice"
      else if f.name == "MinPrice" then "MaxPrice"
      else ""
    priceRangeLoop f.name price related fs

/-- `handleItemFilterType`: type-specific validation dispatch on the filter
name, mirroring the Go switch case by case.  `now` is the instant the source
obtains from its clock inside `isValidDateTime`. -/
def handleItemFilterType (now : Int) (f : ItemFilter) (fs : List ItemFilter)
    (ps : Params) : Except Err Unit :=
  let v0 := f.values.headD ""
  if f.name == "AuthorizedSellerOnly" || f.name == "BestOfferOnly" ||
     f.name == "CharityOnly" || f.name == "ExcludeAutoPay" ||
     f.name == "FreeShippingOnly" || f.name == "HideDuplicateItems" ||
     f.name == "LocalPickupOnly" || f.name == "LotsOnly" ||
     f.name == "ReturnsAcceptedOnly" || f.name == "SoldItemsOnly" then
    if v0 != "true" && v0 != "false" then .error (.invalidBooleanValue v0) else .ok ()
  else if f.name == "AvailableTo" then
    if !isValidCountryCode v0 then .error (.invalidCountryCode v0) else .ok ()
  else if f.name == "Condition" then
    if !isValidCondition v0 then .error (.invalidCondition v0) else .ok ()
  else if f.name == "Currency" then
    if !validCurrencyIDs.contains v0 then .error (.invalidCurrencyID v0) else .ok ()
  else if f.name == "EndTimeFrom" || f.name == "EndTimeTo" ||
          f.name == "StartTimeFrom" || f.name == "StartTimeTo" then
    if !isValidDateTime v0 true now then .error (.invalidDateTime v0) else .ok ()
  else if f.name == "ExcludeCategory" then validateExcludeCategories f.values
  else if f.name == "ExcludeSeller" then validateExcludeSellers f.values fs
  else if f.name == "ExpeditedShippingType" then
    if v0 != "Expedited" && v0 != "OneDayShipping" then
      .error (.invalidExpeditedShippingType v0)
    else .ok ()
  else if f.name == "FeedbackScoreMax" || f.name == "FeedbackScoreMin" then
    validateNumericFilter f fs 0 "FeedbackScoreMax" "FeedbackScoreMin"
  else if f.name == "ListedIn" then validateGlobalID v0
  else if f.name == "ListingType" then validateListingTypes f.values
  else if f.name == "LocalSearchOnly" then validateLocalSearchOnly f.values fs ps
  else if f.name == "LocatedIn" then validateLocatedIns f.values
  else if f.name == "MaxBids" || f.name == "MinBids" then
    validateNumericFilter f fs 0 "MaxBids" "MinBids"
  else if f.name == "MaxDistance" then
    if !(getParam ps "buyerPostalCode").isSome then .error .buyerPostalCodeMissing
    else if !isValidIntegerInRange v0 5 then .error (.invalidInteger v0 5)
    else .ok ()
  else if f.name == "MaxHandlingTime" then
    if !isValidIntegerInRange v0 1 then .error (.invalidInteger v0 1) else .ok ()
  else if f.name == "MaxPrice" || f.name == "MinPrice" then validatePriceRange f fs
  else if f.name == "MaxQuantity" || f.name == "MinQuantity" then
    validateNumericFilter f fs 1 "MaxQuantity" "MinQuantity"
  else if f.name == "ModTimeFrom" then
    if !isValidDateTime v0 false now then .error (.invalidDateTime v0) else .ok ()
  else if f.name == "Seller" then validateSellers f.values fs
  else if f.name == "SellerBusinessType" then validateSellerBusinessType f.values
  else if f.name == "TopRatedSellerOnly" then validateTopRatedSellerOnly v0 fs
  else if f.name == "ValueBoxInventory" then
    if v0 != "1" && v0 != "0" then .error (.invalidValueBoxInventory v0) else .ok ()
  else .error (.unsupportedItemFilterType f.name)

/-- Numbered-value probe of `parseFilterValues`: collect attr(0), attr(1), …
until the first missing index (fuel-bounded). -/
def collectValues (ps : Params) (attr : String) : Nat → Nat → List String
  | 0, _ => []
  | fuel + 1, i =>
    match getParam ps (attr ++ "(" ++ toString i ++ ")") with
    | some v => v :: collectValues ps attr fuel (i + 1)
    | none => []

/-- `parseFilterValues`: numbered values first, then the bare value; empty
result is the incomplete-filter error; a bare value together with a
zero-indexed value is the index-syntax error. -/
def parseFilterValues (ps : Params) (attr : String) : Except Err (List String) :=
  let vals :=
    match getParam ps attr with
    | some v => collectValues ps attr (ps.length + 1) 0 ++ [v]
    | none => collectValues ps attr (ps.length + 1) 0
  if vals.isEmpty then .error (.incompleteFilterNameOnly attr)
  else if (getParam ps attr).isSome && (getParam ps (attr ++ "(0)")).isSome then
    .error .invalidIndexSyntax
  else .ok vals

/-- `processNonNumberedItemFilter`: a single filter from the bare keys; its
type handler runs against an empty sibling list (Go passes nil). -/
def processNonNumberedItemFilter (now : Int) (ps : Params) :
    Except Err (List ItemFilter) :=
  match parseFilterValues ps "itemFilter.value" with
  | .error e => .error e
  | .ok vals =>
    let pn := getParam ps "itemFilter.paramName"
    let pv := getParam ps "itemFilter.paramValue"
    if pn.isSome != pv.isSome then .error .incompleteItemFilterParam
    else
      let f : ItemFilter :=
        { name := (getParam ps "itemFilter.name").getD ""
          values := vals, paramName := pn, paramValue := pv }
      match handleItemFilterType now f [] ps with
      | .error e => .error e
      | .ok _ => .ok [f]

/-- Collection loop of `processNumberedItemFilters` (fuel-bounded probe of
itemFilter(i).name). -/
def collectNumberedItemFilters (ps : Params) : Nat → Nat → Except Err (List ItemFilter)
  | 0, _ => .ok []
  | fuel + 1, i =>
    match getParam ps ("itemFilter(" ++ toString i ++ ").name") with
    | none => .ok []
    | some name =>
      match parseFilterValues ps ("itemFilter(" ++ toString i ++ ").value") with
      | .error e => .error e
      | .ok vals =>
        let pn := getParam ps ("itemFilter(" ++ toString i ++ ").paramName")
        let pv := getParam ps ("itemFilter(" ++ toString i ++ ").paramValue")
        if pn.isSome != pv.isSome then .error .incompleteItemFilterParam
        else
          match collectNumberedItemFilters ps fuel (i + 1) with
          | .error e => .error e
          | .ok rest =>
            .ok ({ name := name, values := vals, paramName := pn, paramValue := pv } :: rest)

/-- Second pass of `processNumberedItemFilters`: run the type handler for
each collected filter against the whole collected list. -/
def handleAllItemFilters (now : Int) (all : List ItemFilter) (ps : Params) :
    List ItemFilter → Except Err Unit
  | [] => .ok ()
  | f :: rest =>
    match handleItemFilterType now f all ps with
    | .error e => .error e
    | .ok _ => handleAllItemFilters now all ps rest

/-- `processNumberedItemFilters`. -/
def processNumberedItemFilters (now : Int) (ps : Params) :
    Except Err (List ItemFilter) :=
  match collectNumberedItemFilters ps (ps.length + 1) 0 with
  | .error e => .error e
  | .ok fs =>
    match handleAllItemFilters now fs ps fs with
    | .error e => .error e
    | .ok _ => .ok fs

/-- `processItemFilters`: bare and zero-indexed name keys may not coexist;
then dispatch on which syntax is in use. -/
def processItemFilters (now : Int) (ps : Params) : Except Err (List ItemFilter) :=
  if (getParam ps "itemFilter.name").isSome &&
     (getParam ps "itemFilter(0).name").isSome then
    .error .invalidIndexSyntax
  else if (getParam ps "itemFilter.name").isSome then
    processNonNumberedItemFilter now ps
  else processNumberedItemFilters now ps

/-- `processNonNumberedAspectFilter`. -/
def processNonNumberedAspectFilter (ps : Params) : Except Err (List AspectFilter) :=
  match parseFilterValues ps "aspectFilter.aspectValueName" with
  | .error e => .error e
  | .ok vals =>
    .ok [{ aspectName := (getParam ps "aspectFilter.aspectName").getD ""
           aspectValueNames := vals }]

/-- Collection loop of `processNumberedAspectFilters` (fuel-bounded). -/
def collectNumberedAspectFilters (ps : Params) : Nat → Nat → Except Err (List AspectFilter)
  | 0, _ => .ok []
  | fuel + 1, i =>
    match getParam ps ("aspectFilter(" ++ toString i ++ ").aspectName") with
    | none => .ok []
    | some name =>
      match parseFilterValues ps ("aspectFilter(" ++ toString i ++ ").aspectValueName") with
      | .error e => .error e
      | .ok vals =>
        match collectNumberedAspectFilters ps fuel (i + 1) with
        | .error e => .error e
        | .ok rest => .ok ({ aspectName := name, aspectValueNames := vals } :: rest)

/-- `processAspectFilters`. -/
def processAspectFilters (ps : Params) : Except Err (List AspectFilter) :=
  if (getParam ps "aspectFilter.aspectName").isSome &&
     (getParam ps "aspectFilter(0).aspectName").isSome then
    .error .invalidIndexSyntax
  else if (getParam ps "aspectFilter.aspectName").isSome then
    processNonNumberedAspectFilter ps
  else collectNumberedAspectFilters ps (ps.length + 1) 0

/-- Inner value loop of the item-filter serialization in `newRequest`:
itemFilter(i).value(j) entries, `j` counting from `j0`. -/
def valueEntries (pre : String) : Nat → List String → List (String × String)
  | _, [] => []
  | j, v :: rest =>
    (pre ++ "(" ++ toString j ++ ")", v) :: valueEntries pre (j + 1) rest

/-- Item-filter serialization loop of `newRequest` (identical across the five
operations): for each filter, its name, its values with nested indices, and —
only when both are present on that filter — its `paramName`/`paramValue`
pair.  The list records the query additions in emission order. -/
def itemFilterEntries : Nat → List ItemFilter → List (String × String)
  | _, [] => []
  | i, f :: rest =>
    let pre := "itemFilter(" ++ toString i ++ ")"
    (pre ++ ".name", f.name) ::
      (valueEntries (pre ++ ".value") 0 f.values ++
        (match f.paramName, f.paramValue with
         | some pn, some pv => [(pre ++ ".paramName", pn), (pre ++ ".paramValue", pv)]
         | _, _ => []) ++
        itemFilterEntries (i + 1) rest)

/-- Serialized query entries for a validated item-filter list. -/
def itemFilterQuery (fs : List ItemFilter) : List (String × String) :=
  itemFilterEntries 0 fs

/-- `validateCategoryID`: byte length at most 10 and integer-parsable. -/
def validateCategoryID (id : String) : Except Err Unit :=
  if goLen id > 10 then .error .invalidCategoryIDLength
  else
    match goAtoi id with
    | none => .error (.invalidCategoryID id)
    | some _ => .ok ()

/-- Numbered collection loop of `processCategoryIDs` (fuel-bounded): each ID
is validated, and more than 3 collected IDs is an error (the count check
follows the append, as in the source). -/
def collectCategoryIDs (ps : Params) : Nat → Nat → Nat → Except Err (List String)
  | 0, _, _ => .ok []
  | fuel + 1, i, count =>
    match getParam ps ("categoryId(" ++ toString i ++ ")") with
    | none => .ok []
    | some cID =>
      match validateCategoryID cID with
      | .error e => .error e
      | .ok _ =>
        if count + 1 > 3 then .error .maxCategoryIDs
        else
          match collectCategoryIDs ps fuel (i + 1) (count + 1) with
          | .error e => .error e
          | .ok rest => .ok (cID :: rest)

/-- `processCategoryIDs`. -/
def processCategoryIDs (ps : Params) : Except Err (List String) :=
  if (getParam ps "categoryId").isSome && (getParam ps "categoryId(0)").isSome then
    .error .invalidIndexSyntax
  else
    match getParam ps "categoryId" with
    | some categoryID =>
      match validateCategoryID categoryID with
      | .error e => .error e
      | .ok _ => .ok [categoryID]
    | none => collectCategoryIDs ps (ps.length + 1) 0 0

/-- The keyword-delimiter characters of `splitKeywords`. -/
def isSpecialChar (c : Char) : Bool :=
  c == ' ' || c == ',' || c == '(' || c == ')' || c == '"' || c == '-' ||
  c == '*' || c == '@' || c == '+'

/-- Field splitter underlying `splitKeywords` (Go delimiter-run field
splitting: maximal delimiter-free runs, empty fields dropped); `cur` holds
the current field reversed. -/
def splitFields : List Char → List Char → List (List Char)
  | [], cur => if cur.isEmpty then [] else [cur.reverse]
  | c :: cs, cur =>
    if isSpecialChar c then
      if cur.isEmpty then splitFields cs []
      else cur.reverse :: splitFields cs []
    else splitFields cs (c :: cur)

/-- `splitKeywords`: split on the search-operator characters. -/
def splitKeywords (keywords : String) : List (List Char) :=
  splitFields keywords.data []

/-- `processKeywords`: the keywords parameter must be present, its byte
length in [2,350], and every delimiter-split token at most 98 bytes (the
loop of the source reports the same error for whichever token offends
first). -/
def processKeywords (ps : Params) : Except Err String :=
  match getParam ps "keywords" with
  | none => .error .keywordsMissing
  | some keywords =>
    if goLen keywords < 2 ∨ goLen keywords > 350 then .error .invalidKeywordsLength
    else if (splitKeywords keywords).any (fun k => byteLen k > 98) then
      .error .invalidKeywordLength
    else .ok keywords

/-- Product identifier (struct `productID`). -/
structure ProductID where
  idType : String
  value : String
deriving DecidableEq, Repr

/-- `isDigit` of the source: an integer in [0,9]. -/
def isDigitInt (d : Int) : Bool := 0 ≤ d && d ≤ 9

/-- ISBN-10 loop of `isValidISBN`: running cumulative-sum checksum; a
non-digit is only allowed as X in the final (tenth) position.  Returns the
checksum, or none when a character is invalid. -/
def isbn10Loop : List Char → Nat → Int → Int → Option Int
  | [], _, _, sum => some sum
  | c :: rest, i, acc, sum =>
    let d : Int := (c.toNat : Int) - 48
    if isDigitInt d then isbn10Loop rest (i + 1) (acc + d) (sum + acc + d)
    else if i == 9 && c == 'X' then
      isbn10Loop rest (i + 1) (acc + 10) (sum + acc + 10)
    else none

/-- ISBN-13 loop of `isValidISBN`: weights 1 and 3 alternating from the
first position. -/
def isbn13Loop : List Char → Nat → Int → Option Int
  | [], _, sum => some sum
  | c :: rest, i, sum =>
    let d : Int := (c.toNat : Int) - 48
    if !isDigitInt d then none
    else if i % 2 == 0 then isbn13Loop rest (i + 1) (sum + d)
    else isbn13Loop rest (i + 1) (sum + d * 3)

/-- `isValidISBN`. -/
def isValidISBN (s : String) : Bool :=
  if goLen s == 10 then
    match isbn10Loop s.data 0 0 0 with
    | some sum => sum % 11 == 0
    | none => false
  else
    match isbn13Loop s.data 0 0 with
    | some sum => sum % 10 == 0
    | none => false

/-- Weighted loop of `isValidEAN` over all but the last character; the
multiplier-3 positions depend on the code length. -/
def eanLoop (len : Nat) : List Char → Nat → Int → Option Int
  | [], _, sum => some sum
  | c :: rest, i, sum =>
    let d : Int := (c.toNat : Int) - 48
    if !isDigitInt d then none
    else if (len == 8 && i % 2 == 0) || (len == 13 && i % 2 != 0) ||
            (len == 12 && i % 2 == 0) then
      eanLoop len rest (i + 1) (sum + d * 3)
    else eanLoop len rest (i + 1) (sum + d)

/-- `isValidEAN` (also used for UPC codes). -/
def isValidEAN (s : String) : Bool :=
  match eanLoop (goLen s) s.data.dropLast 0 0 with
  | none => false
  | some sum =>
    match s.data.getLast? with
    | none => false
    | some c =>
      let checkDigit : Int := (c.toNat : Int) - 48
      isDigitInt checkDigit && (sum + checkDigit) % 10 == 0

/-- `processProductID`: dispatch on the product ID type with the type's
length and checksum rules. -/
def processProductID (p : ProductID) : Except Err Unit :=
  if p.idType == "ReferenceID" then
    if goLen p.value < 1 then .error .invalidProductIDLength else .ok ()
  else if p.idType == "ISBN" then
    if goLen p.value != 10 && goLen p.value != 13 then .error .invalidISBNLength
    else if !isValidISBN p.value then .error .invalidISBN
    else .ok ()
  else if p.idType == "UPC" then
    if goLen p.value != 12 then .error .invalidUPCLength
    else if !isValidEAN p.value then .error .invalidUPC
    else .ok ()
  else if p.idType == "EAN" then
    if goLen p.value != 8 && goLen p.value != 13 then .error .invalidEANLength
    else if !isValidEAN p.value then .error .invalidEAN
    else .ok ()
  else .error (.unsupportedProductIDType p.idType)

/-- Does `s` start with `pat`? -/
def startsWithL : List Char → List Char → Bool
  | _, [] => true
  | [], _ :: _ => false
  | a :: as, b :: bs => a == b && startsWithL as bs

/-- Go substring containment: some suffix of `s` starts with `pat`. -/
def containsSub (s pat : List Char) : Bool :=
  match s with
  | [] => pat.isEmpty
  | _ :: rest => startsWithL s pat || containsSub rest pat

/-- `validateStoreName`: non-empty, and if it contains an ampersand at all it
must contain the escape sequence somewhere. -/
def validateStoreName (storeName : String) : Except Err Unit :=
  if storeName == "" then .error .invalidStoreNameLength
  else if containsSub storeName.data ['&'] &&
          !containsSub storeName.data ['&', 'a', 'm', 'p', ';'] then
    .error .invalidStoreNameAmpersand
  else .ok ()

/-- Numbered collection loop of `processOutputSelectors` (fuel-bounded). -/
def collectOutputSelectors (ps : Params) : Nat → Nat → Except Err (List String)
  | 0, _ => .ok []
  | fuel + 1, i =>
    match getParam ps ("outputSelector(" ++ toString i ++ ")") with
    | none => .ok []
    | some s =>
      if !validOutputSelectors.contains s then .error .invalidOutputSelector
      else
        match collectOutputSelectors ps fuel (i + 1) with
        | .error e => .error e
        | .ok rest => .ok (s :: rest)

/-- `processOutputSelectors`. -/
def processOutputSelectors (ps : Params) : Except Err (List String) :=
  if (getParam ps "outputSelector").isSome &&
     (getParam ps "outputSelector(0)").isSome then
    .error .invalidIndexSyntax
  else
    match getParam ps "outputSelector" with
    | some os =>
      if !validOutputSelectors.contains os then .error .invalidOutputSelector
      else .ok [os]
    | none => collectOutputSelectors ps (ps.length + 1) 0

/-- Affiliate block (struct `affiliate`). -/
structure Affiliate where
  customID : Option String := none
  geoTargeting : Option String := none
  networkID : Option String := none
  trackingID : Option String := none
deriving DecidableEq, Repr

/-- `validateTrackingID`: integer-parsable and exactly 10 bytes long. -/
def validateTrackingID (trackingID : String) : Except Err Unit :=
  match goAtoi trackingID with
  | none => .error (.invalidTrackingID trackingID)
  | some _ =>
    if goLen trackingID != 10 then .error .invalidCampaignID else .ok ()

/-- `processAffiliate`: optional custom ID (≤ 256 bytes), optional boolean
geo-targeting, and a network/tracking ID pair that must appear together; the
network ID must be an integer in [2,9], and network 9 requires a valid
campaign tracking ID.  (The source always returns a non-nil affiliate.) -/
def processAffiliate (ps : Params) : Except Err Affiliate :=
  let customID := getParam ps "affiliate.customId"
  match customID with
  | some cid =>
    if goLen cid > 256 then .error .invalidCustomIDLength
    else processGeo { customID := customID }
  | none => processGeo {}
where
  processGeo (aff : Affiliate) : Except Err Affiliate :=
    match getParam ps "affiliate.geoTargeting" with
    | some geo =>
      if geo != "true" && geo != "false" then .error (.invalidBooleanValue geo)
      else processNetwork { aff with geoTargeting := some geo }
    | none => processNetwork aff
  processNetwork (aff : Affiliate) : Except Err Affiliate :=
    let networkID := getParam ps "affiliate.networkId"
    let trackingID := getParam ps "affiliate.trackingId"
    if networkID.isSome != trackingID.isSome then .error .incompleteAffiliateParams
    else
      match networkID, trackingID with
      | some nIDs, some tIDs =>
        match goAtoi nIDs with
        | none => .error (.invalidNetworkID nIDs)
        | some nID =>
          if nID < 2 || nID > 9 then .error .invalidNetworkIDRange
          else if nID == 9 then
            match validateTrackingID tIDs with
            | .error e => .error e
            | .ok _ => .ok { aff with networkID := networkID, trackingID := trackingID }
          else .ok { aff with networkID := networkID, trackingID := trackingID }
      | _, _ => .ok aff

/-- `isValidPostalCode`: byte length at least 3. -/
def isValidPostalCode (postalCode : String) : Bool :=
  goLen postalCode ≥ 3

/-- Pagination input (struct `paginationInput`). -/
structure PaginationInput where
  entriesPerPage : Option String := none
  pageNumber : Option String := none
deriving DecidableEq, Repr

/-- `processPaginationInput`: each of the two fields, when present, must
parse as an integer in [1,100]. -/
def processPaginationInput (ps : Params) : Except Err PaginationInput :=
  let entriesPerPage := getParam ps "paginationInput.entriesPerPage"
  let pageNumber := getParam ps "paginationInput.pageNumber"
  match entriesPerPage, pageNumber with
  | none, none => .ok {}
  | _, _ =>
    let checkEntries : Except Err (Option String) :=
      match entriesPerPage with
      | none => .ok none
      | some e =>
        match goAtoi e with
        | none => .error (.invalidEntriesPerPage e)
        | some v =>
          if v < 1 || v > 100 then .error .invalidEntriesPerPageRange
          else .ok (some e)
    match checkEntries with
    | .error e => .error e
    | .ok eField =>
      match pageNumber with
      | none => .ok { entriesPerPage := eField }
      | some p =>
        match goAtoi p with
        | none => .error (.invalidPageNumber p)
        | some v =>
          if v < 1 || v > 100 then .error .invalidPageNumberRange
          else .ok { entriesPerPage := eField, pageNumber := some p }

/-- The auction-listing-filter test of `validateSortOrder`: some ListingType
filter whose values contain Auction. -/
def hasAuctionListing (fs : List ItemFilter) : Bool :=
  fs.any (fun f => f.name == "ListingType" && f.values.contains "Auction")

/-- `validateSortOrder`: the fixed sort-order enumeration; bid-count orders
require an Auction listing-type filter, DistanceNearest requires a buyer
postal code. -/
def validateSortOrder (sortOrder : String) (fs : List ItemFilter)
    (hasBuyerPostalCode : Bool) : Except Err Unit :=
  if sortOrder == "BestMatch" || sortOrder == "CountryAscending" ||
     sortOrder == "CountryDescending" || sortOrder == "CurrentPriceHighest" ||
     sortOrder == "EndTimeSoonest" || sortOrder == "PricePlusShippingHighest" ||
     sortOrder == "PricePlusShippingLowest" || sortOrder == "StartTimeNewest" ||
     sortOrder == "WatchCountDecreaseSort" then .ok ()
  else if sortOrder == "BidCountFewest" || sortOrder == "BidCountMost" then
    if !hasAuctionListing fs then .error .auctionListingMissing else .ok ()
  else if sortOrder == "DistanceNearest" then
    if !hasBuyerPostalCode then .error .buyerPostalCodeMissing else .ok ()
  else .error .unsupportedSortOrderType

/-- Shared Global-ID step of the `validate` methods. -/
def processGlobalID (ps : Params) : Except Err (Option String) :=
  match getParam ps "Global-ID" with
  | some g =>
    match validateGlobalID g with
    | .error e => .error e
    | .ok _ => .ok (some g)
  | none => .ok none

/-- Shared buyer-postal-code step of the `validate` methods. -/
def processBuyerPostalCode (ps : Params) : Except Err (Option String) :=
  match getParam ps "buyerPostalCode" with
  | some b => if isValidPostalCode b then .ok (some b) else .error .invalidPostalCode
  | none => .ok none

/-- Shared sort-order step of the `validate` methods. -/
def processSortOrder (ps : Params) (fs : List ItemFilter)
    (hasBuyerPostalCode : Bool) : Except Err (Option String) :=
  match getParam ps "sortOrder" with
  | some so =>
    match validateSortOrder so fs hasBuyerPostalCode with
    | .error e => .error e
    | .ok _ => .ok (some so)
  | none => .ok none

/-- Validated parameter object of the by-category operation
(struct `findItemsByCategoryParams`, minus the application credential, which
validation never touches). -/
structure FindItemsByCategoryParams where
  globalID : Option String := none
  aspectFilters : List AspectFilter := []
  categoryIDs : List String := []
  itemFilters : List ItemFilter := []
  outputSelectors : List String := []
  affiliate : Affiliate := {}
  buyerPostalCode : Option String := none
  paginationInput : PaginationInput := {}
  sortOrder : Option String := none
deriving DecidableEq, Repr

/-- The by-category `validate` method, step for step in source order:
required category IDs, then Global-ID, aspect filters, item filters, output
selectors, affiliate, postal code, pagination, sort order. -/
def findItemsByCategoryValidate (now : Int) (ps : Params) :
    Except Err FindItemsByCategoryParams :=
  if !hasParam ps "categoryId" && !hasParam ps "categoryId(0)" then
    .error .categoryIDMissing
  else
    match processCategoryIDs ps with
    | .error e => .error e
    | .ok categoryIDs =>
      match processGlobalID ps with
      | .error e => .error e
      | .ok globalID =>
        match processAspectFilters ps with
        | .error e => .error e
        | .ok aspectFilters =>
          match processItemFilters now ps with
          | .error e => .error e
          | .ok itemFilters =>
            match processOutputSelectors ps with
            | .error e => .error e
            | .ok outputSelectors =>
              match processAffiliate ps with
              | .error e => .error e
              | .ok affiliate =>
                match processBuyerPostalCode ps with
                | .error e => .error e
                | .ok buyerPostalCode =>
                  match processPaginationInput ps with
                  | .error e => .error e
                  | .ok paginationInput =>
                    match processSortOrder ps itemFilters buyerPostalCode.isSome with
                    | .error e => .error e
                    | .ok sortOrder =>
                      .ok { globalID, aspectFilters, categoryIDs, itemFilters,
                            outputSelectors, affiliate, buyerPostalCode,
                            paginationInput, sortOrder }

/-- Validated parameter object of the advanced operation
(struct `findItemsAdvancedParams`, minus the application credential). -/
structure FindItemsAdvancedParams where
  globalID : Option String := none
  aspectFilters : List AspectFilter := []
  categoryIDs : List String := []
  descriptionSearch : Option String := none
  itemFilters : List ItemFilter := []
  keywords : Option String := none
  outputSelectors : List String := []
  affiliate : Affiliate := {}
  buyerPostalCode : Option String := none
  paginationInput : PaginationInput := {}
  sortOrder : Option String := none
deriving DecidableEq, Repr

/-- The advanced `validate` method: category IDs or keywords required, then
the shared steps in source order (with the descriptionSearch boolean between
aspect filters and item filters). -/
def findItemsAdvancedValidate (now : Int) (ps : Params) :
    Except Err FindItemsAdvancedParams :=
  if !hasParam ps "categoryId" && !hasParam ps "categoryId(0)" &&
     !hasParam ps "keywords" then
    .error .categoryIDKeywordsMissing
  else
    let step1 : Except Err (List String) :=
      if hasParam ps "categoryId" || hasParam ps "categoryId(0)" then
        processCategoryIDs ps
      else .ok []
    match step1 with
    | .error e => .error e
    | .ok categoryIDs =>
      let step2 : Except Err (Option String) :=
        if hasParam ps "keywords" then
          match processKeywords ps with
          | .error e => .error e
          | .ok kw => .ok (some kw)
        else .ok none
      match step2 with
      | .error e => .error e
      | .ok keywords =>
        match processGlobalID ps with
        | .error e => .error e
        | .ok globalID =>
          match processAspectFilters ps with
          | .error e => .error e
          | .ok aspectFilters =>
            let step5 : Except Err (Option String) :=
              match getParam ps "descriptionSearch" with
              | some ds =>
                if ds != "true" && ds != "false" then .error (.invalidBooleanValue ds)
                else .ok (some ds)
              | none => .ok none
            match step5 with
            | .error e => .error e
            | .ok descriptionSearch =>
              match processItemFilters now ps with
              | .error e => .error e
              | .ok itemFilters =>
                match processOutputSelectors ps with
                | .error e => .error e
                | .ok outputSelectors =>
                  match processAffiliate ps with
                  | .error e => .error e
                  | .ok affiliate =>
                    match processBuyerPostalCode ps with
                    | .error e => .error e
                    | .ok buyerPostalCode =>
                      match processPaginationInput ps with
                      | .error e => .error e
                      | .ok paginationInput =>
                        match processSortOrder ps itemFilters buyerPostalCode.isSome with
                        | .error e => .error e
                        | .ok sortOrder =>
                          .ok { globalID, aspectFilters, categoryIDs,
                                descriptionSearch, itemFilters, keywords,
                                outputSelectors, affiliate, buyerPostalCode,
                                paginationInput, sortOrder }

/-- Validated parameter object of the by-store operation
(struct `findItemsInEBayStoresParams`, minus the application credential). -/
structure FindItemsInEBayStoresParams where
  globalID : Option String := none
  aspectFilters : List AspectFilter := []
  categoryIDs : List String := []
  itemFilters : List ItemFilter := []
  keywords : Option String := none
  outputSelectors : List String := []
  storeName : Option String := none
  affiliate : Affiliate := {}
  buyerPostalCode : Option String := none
  paginationInput : PaginationInput := {}
  sortOrder : Option String := none
deriving DecidableEq, Repr

/-- The by-store `validate` method: category IDs, keywords or store name
required; category IDs are processed first, then keywords, then the store
name, then the shared steps in source order. -/
def findItemsInEBayStoresValidate (now : Int) (ps : Params) :
    Except Err FindItemsInEBayStoresParams :=
  if !hasParam ps "categoryId" && !hasParam ps "categoryId(0)" &&
     !hasParam ps "keywords" && !hasParam ps "storeName" then
    .error .categoryIDKeywordsStoreNameMissing
  else
    let step1 : Except Err (List String) :=
      if hasParam ps "categoryId" || hasParam ps "categoryId(0)" then
        processCategoryIDs ps
      else .ok []
    match step1 with
    | .error e => .error e
    | .ok categoryIDs =>
      let step2 : Except Err (Option String) :=
        if hasParam ps "keywords" then
          match processKeywords ps with
          | .error e => .error e
          | .ok kw => .ok (some kw)
        else .ok none
      match step2 with
      | .error e => .error e
      | .ok keywords =>
        let step3 : Except Err (Option String) :=
          match getParam ps "storeName" with
          | some sn =>
            match validateStoreName sn with
            | .error e => .error e
            | .ok _ => .ok (some sn)
          | none => .ok none
        match step3 with
        | .error e => .error e
        | .ok storeName =>
          match processGlobalID ps with
          | .error e => .error e
          | .ok globalID =>
            match processAspectFilters ps with
            | .error e => .error e
            | .ok aspectFilters =>
              match processItemFilters now ps with
              | .error e => .error e
              | .ok itemFilters =>
                match processOutputSelectors ps with
                | .error e => .error e
                | .ok outputSelectors =>
                  match processAffiliate ps with
                  | .error e => .error e
                  | .ok affiliate =>
                    match processBuyerPostalCode ps with
                    | .error e => .error e
                    | .ok buyerPostalCode =>
                      match processPaginationInput ps with
                      | .error e => .error e
                      | .ok paginationInput =>
                        match processSortOrder ps itemFilters buyerPostalCode.isSome with
                        | .error e => .error e
                        | .ok sortOrder =>
                          .ok { globalID, aspectFilters, categoryIDs,
                                itemFilters, keywords, outputSelectors,
                                storeName, affiliate, buyerPostalCode,
                                paginationInput, sortOrder }

/-- The ten boolean item-filter types of the first switch case of
`handleItemFilterType`. -/
def boolItemFilterNames : List String :=
  ["AuthorizedSellerOnly", "BestOfferOnly", "CharityOnly", "ExcludeAutoPay",
   "FreeShippingOnly", "HideDuplicateItems", "LocalPickupOnly", "LotsOnly",
   "ReturnsAcceptedOnly", "SoldItemsOnly"]

/-- A price filter over a single value with an optional currency qualifier:
when `c` is present the filter carries paramName Currency and paramValue
`c`, otherwise neither. -/
def priceFilter (nm v : String) (c : Option String) : ItemFilter :=
  { name := nm, values := [v], paramName := c.map (fun _ => "Currency"), paramValue := c }

/-! ## Claims -/

/-- C1 counterexample: on the exact Raw Parameters of the claim — bare
syntax for the Seller filter, numbered syntax at index 1 for the
ExcludeSeller filter — item-filter processing does not fail at all: the
index-syntax check probes only itemFilter(0).name, which is absent, so the
non-numbered path runs and returns just the Seller filter. -/
theorem claim_C1_counterexample :
    processItemFilters 0
      [("itemFilter.name", "Seller"), ("itemFilter.value", "0"),
       ("itemFilter(1).name", "ExcludeSeller"), ("itemFilter(1).value", "0")] =
      .ok [{ name := "Seller", values := ["0"] }] := by
  rfl

/-- C1 (amended): with the numbered filter at index 1, processing succeeds
and yields only the non-numbered Seller filter (a numbered filter whose
indexing starts above 0 is ignored); the index-syntax conflict arises only
when the numbered filter uses index 0, and then it is raised before the
seller-exclusivity rule can be reached. -/
theorem claim_C1 :
    processItemFilters 0
      [("itemFilter.name", "Seller"), ("itemFilter.value", "0"),
       ("itemFilter(1).name", "ExcludeSeller"), ("itemFilter(1).value", "0")] =
      .ok [{ name := "Seller", values := ["0"] }] ∧
    processItemFilters 0
      [("itemFilter.name", "Seller"), ("itemFilter.value", "0"),
       ("itemFilter(0).name", "ExcludeSeller"), ("itemFilter(0).value", "0")] =
      .error .invalidIndexSyntax := by
  constructor <;> rfl

/-- C2: the code evaluated at the claim's failing input.  The store name
contains one escaped ampersand and one additional bare ampersand; the claim
(and the doc comment of the ampersand error in the source) requires
rejection, but `validateStoreName` only tests whether some escape sequence
occurs anywhere once an ampersand is present, so it accepts the value. -/
theorem claim_C2 :
    validateStoreName "Ben &amp; Jerry & Co" = .ok () := by
  rfl

/-- C6: whenever both the bare categoryId key and the zero-indexed
categoryId(0) key are present, each of the three category-accepting
operations fails with the index-syntax-conflict error. -/
theorem claim_C6 (now : Int) (ps : Params)
    (h1 : hasParam ps "categoryId" = true)
    (h2 : hasParam ps "categoryId(0)" = true) :
    findItemsByCategoryValidate now ps = .error .invalidIndexSyntax ∧
    findItemsAdvancedValidate now ps = .error .invalidIndexSyntax ∧
    findItemsInEBayStoresValidate now ps = .error .invalidIndexSyntax := by
  simp only [hasParam] at h1 h2
  refine ⟨?_, ?_, ?_⟩ <;>
    simp [findItemsByCategoryValidate, findItemsAdvancedValidate,
      findItemsInEBayStoresValidate, processCategoryIDs, hasParam, h1, h2]

/-- C6 witness: a concrete parameter mapping carrying both keys. -/
theorem claim_C6_witness :
    findItemsByCategoryValidate 0 [("categoryId", "1"), ("categoryId(0)", "2")] =
      .error .invalidIndexSyntax ∧
    findItemsAdvancedValidate 0 [("categoryId", "1"), ("categoryId(0)", "2")] =
      .error .invalidIndexSyntax ∧
    findItemsInEBayStoresValidate 0 [("categoryId", "1"), ("categoryId(0)", "2")] =
      .error .invalidIndexSyntax :=
  claim_C6 0 [("categoryId", "1"), ("categoryId(0)", "2")] (by rfl) (by rfl)

/-- C7: ISBN product-ID validation accepts the valid 10- and 13-digit
examples and rejects the two checksum-violating examples with the
invalid-ISBN error. -/
theorem claim_C7 :
    processProductID { idType := "ISBN", value := "0131103628" } = .ok () ∧
    processProductID { idType := "ISBN", value := "9780131101630" } = .ok () ∧
    processProductID { idType := "ISBN", value := "886154142X" } = .error .invalidISBN ∧
    processProductID { idType := "ISBN", value := "9861541429" } = .error .invalidISBN := by
  refine ⟨?_, ?_, ?_, ?_⟩ <;> rfl

/-- C9: DistanceNearest requires a buyer postal code (and the concrete code
111 passes the postal-code test, after which DistanceNearest succeeds);
the two bid-count sort orders fail with the auction-listing-missing error
exactly unless some ListingType filter lists Auction among its values. -/
theorem claim_C9 :
    (∀ fs, validateSortOrder "DistanceNearest" fs false =
      .error .buyerPostalCodeMissing) ∧
    (isValidPostalCode "111" = true ∧
      ∀ fs, validateSortOrder "DistanceNearest" fs true = .ok ()) ∧
    (∀ fs b, hasAuctionListing fs = false →
      validateSortOrder "BidCountFewest" fs b = .error .auctionListingMissing ∧
      validateSortOrder "BidCountMost" fs b = .error .auctionListingMissing) ∧
    (∀ fs b, hasAuctionListing fs = true →
      validateSortOrder "BidCountFewest" fs b = .ok () ∧
      validateSortOrder "BidCountMost" fs b = .ok ()) := by
  refine ⟨fun fs => by rfl, ⟨by rfl, fun fs => by rfl⟩, ?_, ?_⟩ <;>
    intro fs b h <;> constructor <;> simp [validateSortOrder, h]

/-- C9 witness: without any filters the bid-count sort orders fail. -/
theorem claim_C9_witness :
    validateSortOrder "BidCountFewest" [] false = .error .auctionListingMissing ∧
    validateSortOrder "BidCountMost" [] false = .error .auctionListingMissing :=
  claim_C9.2.2.1 [] false (by rfl)

/-- Success characterization of the LocatedIn per-value loop. -/
theorem checkCountryCodes_ok (values : List String) :
    checkCountryCodes values = .ok () ↔
      ∀ v ∈ values, isValidCountryCode v = true := by
  induction values with
  | nil => simp [checkCountryCodes]
  | cons a rest ih =>
    by_cases h : isValidCountryCode a = true <;>
      simp [checkCountryCodes, h, ih]

/-- Success characterization of `validateLocatedIns`. -/
theorem validateLocatedIns_ok (values : List String) :
    validateLocatedIns values = .ok () ↔
      values.length ≤ 25 ∧ ∀ v ∈ values, isValidCountryCode v = true := by
  by_cases hl : values.length > 25
  · simp [validateLocatedIns, hl]
  · have hle : values.length ≤ 25 := by omega
    simp [validateLocatedIns, hl, checkCountryCodes_ok, hle]

/-- C4 counterexample: an AvailableTo filter whose first value is a valid
country code and whose second value is not passes item-filter processing,
against the claim's requirement that it must fail. -/
theorem claim_C4_counterexample :
    processItemFilters 0
      [("itemFilter.name", "AvailableTo"), ("itemFilter.value(0)", "US"),
       ("itemFilter.value(1)", "XXX")] =
      .ok [{ name := "AvailableTo", values := ["US", "XXX"] }] := by
  rfl

/-- C4 (amended): an AvailableTo filter is validated on its first value
only — it succeeds exactly when the first value passes the two-uppercase
country-code check, regardless of any later values; a LocatedIn filter
succeeds exactly when it has at most 25 values all of which pass the
country-code check, and more than 25 values fail with the max-located-ins
error. -/
theorem claim_C4 (now : Int) (fs : List ItemFilter) (ps : Params) :
    (∀ v vs, handleItemFilterType now ⟨"AvailableTo", v :: vs, none, none⟩ fs ps = .ok ()
      ↔ isValidCountryCode v = true) ∧
    (∀ values, handleItemFilterType now ⟨"LocatedIn", values, none, none⟩ fs ps = .ok ()
      ↔ values.length ≤ 25 ∧ ∀ v ∈ values, isValidCountryCode v = true) ∧
    (∀ values, 25 < values.length →
      handleItemFilterType now ⟨"LocatedIn", values, none, none⟩ fs ps =
        .error .maxLocatedIns) := by
  refine ⟨?_, ?_, ?_⟩
  · intro v vs
    by_cases h : isValidCountryCode v = true <;> simp [handleItemFilterType, h]
  · intro values
    simp [handleItemFilterType, validateLocatedIns_ok]
  · intro values h
    simp [handleItemFilterType, validateLocatedIns, h]

/-- C4 witness for the amended theorem's hypothesis-bearing part: 26 values
trigger the max-located-ins error. -/
theorem claim_C4_witness :
    handleItemFilterType 0 ⟨"LocatedIn", List.replicate 26 "US", none, none⟩ [] [] =
      .error .maxLocatedIns :=
  (claim_C4 0 [] []).2.2 (List.replicate 26 "US") (by simp)

/-- C5 counterexample: a timestamp exactly equal to the validation instant
is not strictly later than it, yet the future-mode date check accepts it
(the source only rejects values before now). -/
theorem claim_C5_counterexample :
    parseRFC3339 "2024-01-01T00:00:00Z" = some (1704067200000000000, true) ∧
    isValidDateTime "2024-01-01T00:00:00Z" true 1704067200000000000 = true := by
  constructor <;> rfl

/-- C5 (amended): the four future-mode time filters succeed exactly when the
value parses as an RFC 3339 timestamp in UTC form whose instant is at or
after the validation time (not strictly later), ModTimeFrom succeeds
exactly when the instant is at or before the validation time, and any other
value fails with the invalid-date-time error. -/
theorem claim_C5 (value : String) (now : Int) (fs : List ItemFilter) (ps : Params) :
    (∀ name ∈ (["EndTimeFrom", "EndTimeTo", "StartTimeFrom", "StartTimeTo"] : List String),
      handleItemFilterType now ⟨name, [value], none, none⟩ fs ps =
        if isValidDateTime value true now then .ok ()
        else .error (.invalidDateTime value)) ∧
    (handleItemFilterType now ⟨"ModTimeFrom", [value], none, none⟩ fs ps =
      if isValidDateTime value false now then .ok ()
      else .error (.invalidDateTime value)) ∧
    (isValidDateTime value true now = true ↔
      ∃ t, parseRFC3339 value = some (t, true) ∧ now ≤ t) ∧
    (isValidDateTime value false now = true ↔
      ∃ t, parseRFC3339 value = some (t, true) ∧ t ≤ now) := by
  refine ⟨?_, ?_, ?_, ?_⟩
  · intro name hname
    fin_cases hname <;>
      [skip; skip; skip; skip] <;>
      by_cases h : isValidDateTime value true now = true <;>
        simp [handleItemFilterType, h]
  · by_cases h : isValidDateTime value false now = true <;>
      simp [handleItemFilterType, h]
  · rcases hp : parseRFC3339 value with _ | ⟨t, u⟩
    · simp [isValidDateTime, hp]
    · cases u <;> simp [isValidDateTime, hp]
  · rcases hp : parseRFC3339 value with _ | ⟨t, u⟩
    · simp [isValidDateTime, hp]
    · cases u <;> simp [isValidDateTime, hp]

/-- C5 witness: a concrete future-mode application of the amended claim. -/
theorem claim_C5_witness :
    handleItemFilterType 0 ⟨"EndTimeFrom", ["2030-01-01T00:00:00Z"], none, none⟩ [] [] =
      if isValidDateTime "2030-01-01T00:00:00Z" true 0 then .ok ()
      else .error (.invalidDateTime "2030-01-01T00:00:00Z") :=
  (claim_C5 "2030-01-01T00:00:00Z" 0 [] []).1 "EndTimeFrom" (by simp)

/-- C8: keyword validation — the empty string and any keywords of 351 bytes
or more fail with the keywords-length error; keywords whose byte length is
in [2,350] succeed when every delimiter-split token is at most 98 bytes,
and fail with the keyword-length error when some token exceeds 98 bytes. -/
theorem claim_C8 :
    processKeywords [("keywords", "")] = .error .invalidKeywordsLength ∧
    (∀ kw, 351 ≤ goLen kw →
      processKeywords [("keywords", kw)] = .error .invalidKeywordsLength) ∧
    (∀ kw, 2 ≤ goLen kw → goLen kw ≤ 350 →
      (∀ tok ∈ splitKeywords kw, byteLen tok ≤ 98) →
      processKeywords [("keywords", kw)] = .ok kw) ∧
    (∀ kw, 2 ≤ goLen kw → goLen kw ≤ 350 →
      (∃ tok ∈ splitKeywords kw, 98 < byteLen tok) →
      processKeywords [("keywords", kw)] = .error .invalidKeywordLength) := by
  refine ⟨by rfl, ?_, ?_, ?_⟩
  · intro kw h
    have hg : getParam [("keywords", kw)] "keywords" = some kw := rfl
    simp only [processKeywords, hg]
    rw [if_pos (by omega)]
  · intro kw h2 h350 htok
    have hg : getParam [("keywords", kw)] "keywords" = some kw := rfl
    have hany : (splitKeywords kw).any (fun k => byteLen k > 98) = false := by
      simp only [List.any_eq_false, decide_eq_true_eq]
      intro tok hmem
      exact Nat.not_lt.mpr (htok tok hmem)
    simp only [processKeywords, hg]
    rw [if_neg (by omega), if_neg (by simp [hany])]
  · intro kw h2 h350 hex
    have hg : getParam [("keywords", kw)] "keywords" = some kw := rfl
    have hany : (splitKeywords kw).any (fun k => byteLen k > 98) = true := by
      rcases hex with ⟨tok, hmem, htok⟩
      simp only [List.any_eq_true, decide_eq_true_eq]
      exact ⟨tok, hmem, htok⟩
    simp only [processKeywords, hg]
    rw [if_neg (by omega), if_pos (by simp [hany])]

/-- C8 witness: a concrete in-range keywords value succeeds. -/
theorem claim_C8_witness :
    processKeywords [("keywords", "ab")] = .ok "ab" :=
  claim_C8.2.2.1 "ab" (by decide) (by decide) (by decide)

/-- Every member of the value list appears (with some index) in the
serialized value entries. -/
theorem valueEntries_mem (pre w : String) :
    ∀ (vs : List String) (j0 : Nat), w ∈ vs →
      ∃ j : Nat, (pre ++ "(" ++ toString j ++ ")", w) ∈ valueEntries pre j0 vs := by
  intro vs
  induction vs with
  | nil => intro j0 h; cases h
  | cons a rest ih =>
    intro j0 h
    rcases List.mem_cons.mp h with h | h
    · exact ⟨j0, by simp [valueEntries, h]⟩
    · rcases ih (j0 + 1) h with ⟨j, hj⟩
      exact ⟨j, by simp [valueEntries, hj]⟩

/-- C10: each of the ten boolean item-filter types is validated on the
first value only — a filter whose first value is the literal true or false
passes regardless of any additional values — and serialization emits the
filter name together with every value, the unvalidated extras included. -/
theorem claim_C10 (name : String) (hname : name ∈ boolItemFilterNames)
    (v : String) (hv : v = "true" ∨ v = "false") (vs : List String)
    (now : Int) (fs : List ItemFilter) (ps : Params) :
    handleItemFilterType now ⟨name, v :: vs, none, none⟩ fs ps = .ok () ∧
    itemFilterQuery [⟨name, v :: vs, none, none⟩] =
      ("itemFilter(0).name", name) :: ("itemFilter(0).value(0)", v) ::
        valueEntries "itemFilter(0).value" 1 vs ∧
    ∀ w ∈ vs, ∃ j : Nat,
      ("itemFilter(0).value(" ++ toString j ++ ")", w) ∈
        itemFilterQuery [⟨name, v :: vs, none, none⟩] := by
  have heq : itemFilterQuery [⟨name, v :: vs, none, none⟩] =
      ("itemFilter(0).name", name) :: ("itemFilter(0).value(0)", v) ::
        valueEntries "itemFilter(0).value" 1 vs := by
    simp only [itemFilterQuery, itemFilterEntries, valueEntries, List.append_nil]
    exact rfl
  refine ⟨?_, heq, ?_⟩
  · fin_cases hname <;> rcases hv with rfl | rfl <;> simp [handleItemFilterType]
  · intro w hw
    rcases valueEntries_mem "itemFilter(0).value" w vs 1 hw with ⟨j, hj⟩
    exact ⟨j, by rw [heq]; exact List.mem_cons_of_mem _ (List.mem_cons_of_mem _ hj)⟩

/-- C10 witness: a boolean filter with a valid first value and arbitrary
extra values passes and serializes all values. -/
theorem claim_C10_witness :
    handleItemFilterType 0 ⟨"BestOfferOnly", ["true", "junk", "US"], none, none⟩ [] [] =
      .ok () ∧
    itemFilterQuery [⟨"BestOfferOnly", ["true", "junk", "US"], none, none⟩] =
      ("itemFilter(0).name", "BestOfferOnly") :: ("itemFilter(0).value(0)", "true") ::
        valueEntries "itemFilter(0).value" 1 ["junk", "US"] ∧
    ∀ w ∈ (["junk", "US"] : List String), ∃ j : Nat,
      ("itemFilter(0).value(" ++ toString j ++ ")", w) ∈
        itemFilterQuery [⟨"BestOfferOnly", ["true", "junk", "US"], none, none⟩] :=
  claim_C10 "BestOfferOnly" (by decide) "true" (by decide) ["junk", "US"] 0 [] []

/-- C3 counterexample: a numbered MaxPrice(EUR-qualified)/MinPrice pair with
max ≥ min validates, but serialization emits the currency qualifier only on
the MaxPrice member — the MinPrice member is serialized without any
qualifier, against the claim that both filters carry matching currency
qualifiers when one is supplied on either member. -/
theorem claim_C3_counterexample :
    processItemFilters 0
      [("itemFilter(0).name", "MaxPrice"), ("itemFilter(0).value", "10.0"),
       ("itemFilter(0).paramName", "Currency"), ("itemFilter(0).paramValue", "USD"),
       ("itemFilter(1).name", "MinPrice"), ("itemFilter(1).value", "5.0")] =
      .ok [{ name := "MaxPrice", values := ["10.0"],
             paramName := some "Currency", paramValue := some "USD" },
           { name := "MinPrice", values := ["5.0"] }] ∧
    itemFilterQuery
      [{ name := "MaxPrice", values := ["10.0"],
         paramName := some "Currency", paramValue := some "USD" },
       { name := "MinPrice", values := ["5.0"] }] =
      [("itemFilter(0).name", "MaxPrice"), ("itemFilter(0).value(0)", "10.0"),
       ("itemFilter(0).paramName", "Currency"), ("itemFilter(0).paramValue", "USD"),
       ("itemFilter(1).name", "MinPrice"), ("itemFilter(1).value(0)", "5.0")] ∧
    ("itemFilter(1).paramName", "Currency") ∉
      itemFilterQuery
        [{ name := "MaxPrice", values := ["10.0"],
           paramName := some "Currency", paramValue := some "USD" },
         { name := "MinPrice", values := ["5.0"] }] := by
  refine ⟨by rfl, by rfl, by decide⟩

/-- C3 (amended): for a MaxPrice/MinPrice pair with valid non-negative
prices and valid optional currency qualifiers, validation with max < min
fails with the max-price error in either filter order, validation with
max ≥ min succeeds in either order, and serialization emits the currency
qualifier on exactly those members of the pair that supplied one (a
qualifier on one member is not copied to the other). -/
theorem claim_C3 (maxV minV : String) (dmax dmin : GoFloat) (c₁ c₂ : Option String)
    (hmax : goParseFloat maxV = some dmax) (hmin : goParseFloat minV = some dmin)
    (hmax0 : dmax.isNeg = false) (hmin0 : dmin.isNeg = false)
    (hc₁ : ∀ c ∈ c₁, c ∈ validCurrencyIDs)
    (hc₂ : ∀ c ∈ c₂, c ∈ validCurrencyIDs) :
    (goFloatLt dmax dmin = true →
      handleAllItemFilters 0 [priceFilter "MaxPrice" maxV c₁, priceFilter "MinPrice" minV c₂]
          [] [priceFilter "MaxPrice" maxV c₁, priceFilter "MinPrice" minV c₂] =
        .error .invalidMaxPrice ∧
      handleAllItemFilters 0 [priceFilter "MinPrice" minV c₂, priceFilter "MaxPrice" maxV c₁]
          [] [priceFilter "MinPrice" minV c₂, priceFilter "MaxPrice" maxV c₁] =
        .error .invalidMaxPrice) ∧
    (goFloatLt dmax dmin = false →
      handleAllItemFilters 0 [priceFilter "MaxPrice" maxV c₁, priceFilter "MinPrice" minV c₂]
          [] [priceFilter "MaxPrice" maxV c₁, priceFilter "MinPrice" minV c₂] = .ok () ∧
      handleAllItemFilters 0 [priceFilter "MinPrice" minV c₂, priceFilter "MaxPrice" maxV c₁]
          [] [priceFilter "MinPrice" minV c₂, priceFilter "MaxPrice" maxV c₁] = .ok ()) ∧
    ((("itemFilter(0).paramName", "Currency") ∈
        itemFilterQuery [priceFilter "MaxPrice" maxV c₁, priceFilter "MinPrice" minV c₂]) ↔
      c₁.isSome = true) ∧
    ((("itemFilter(1).paramName", "Currency") ∈
        itemFilterQuery [priceFilter "MaxPrice" maxV c₁, priceFilter "MinPrice" minV c₂]) ↔
      c₂.isSome = true) := by
  have hpmax : parsePrice (priceFilter "MaxPrice" maxV c₁) = .ok dmax := by
    rcases c₁ with _ | c
    · simp [priceFilter, parsePrice, hmax, hmax0]
    · simp [priceFilter, parsePrice, hmax, hmax0, hc₁ c (by simp)]
  have hpmin : parsePrice (priceFilter "MinPrice" minV c₂) = .ok dmin := by
    rcases c₂ with _ | c
    · simp [priceFilter, parsePrice, hmin, hmin0]
    · simp [priceFilter, parsePrice, hmin, hmin0, hc₂ c (by simp)]
  have hname1 : (priceFilter "MaxPrice" maxV c₁).name = "MaxPrice" := rfl
  have hname2 : (priceFilter "MinPrice" minV c₂).name = "MinPrice" := rfl
  refine ⟨?_, ?_, ?_, ?_⟩
  · intro hlt
    constructor <;>
      simp [handleAllItemFilters, handleItemFilterType, validatePriceRange,
        priceRangeLoop, hname1, hname2, hpmax, hpmin, hlt]
  · intro hge
    constructor <;>
      simp [handleAllItemFilters, handleItemFilterType, validatePriceRange,
        priceRangeLoop, hname1, hname2, hpmax, hpmin, hge]
  · rcases c₁ with _ | c1 <;> rcases c₂ with _ | c2
    · rw [show itemFilterQuery [priceFilter "MaxPrice" maxV none,
          priceFilter "MinPrice" minV none] =
          [("itemFilter(0).name", "MaxPrice"), ("itemFilter(0).value(0)", maxV),
           ("itemFilter(1).name", "MinPrice"), ("itemFilter(1).value(0)", minV)] from rfl]
      simp
    · rw [show itemFilterQuery [priceFilter "MaxPrice" maxV none,
          priceFilter "MinPrice" minV (some c2)] =
          [("itemFilter(0).name", "MaxPrice"), ("itemFilter(0).value(0)", maxV),
           ("itemFilter(1).name", "MinPrice"), ("itemFilter(1).value(0)", minV),
           ("itemFilter(1).paramName", "Currency"), ("itemFilter(1).paramValue", c2)] from rfl]
      simp
    · rw [show itemFilterQuery [priceFilter "MaxPrice" maxV (some c1),
          priceFilter "MinPrice" minV none] =
          [("itemFilter(0).name", "MaxPrice"), ("itemFilter(0).value(0)", maxV),
           ("itemFilter(0).paramName", "Currency"), ("itemFilter(0).paramValue", c1),
           ("itemFilter(1).name", "MinPrice"), ("itemFilter(1).value(0)", minV)] from rfl]
      simp
    · rw [show itemFilterQuery [priceFilter "MaxPrice" maxV (some c1),
          priceFilter "MinPrice" minV (some c2)] =
          [("itemFilter(0).name", "MaxPrice"), ("itemFilter(0).value(0)", maxV),
           ("itemFilter(0).paramName", "Currency"), ("itemFilter(0).paramValue", c1),
           ("itemFilter(1).name", "MinPrice"), ("itemFilter(1).value(0)", minV),
           ("itemFilter(1).paramName", "Currency"), ("itemFilter(1).paramValue", c2)] from rfl]
      simp
  · rcases c₁ with _ | c1 <;> rcases c₂ with _ | c2
    · rw [show itemFilterQuery [priceFilter "MaxPrice" maxV none,
          priceFilter "MinPrice" minV none] =
          [("itemFilter(0).name", "MaxPrice"), ("itemFilter(0).value(0)", maxV),
           ("itemFilter(1).name", "MinPrice"), ("itemFilter(1).value(0)", minV)] from rfl]
      simp
    · rw [show itemFilterQuery [priceFilter "MaxPrice" maxV none,
          priceFilter "MinPrice" minV (some c2)] =
          [("itemFilter(0).name", "MaxPrice"), ("itemFilter(0).value(0)", maxV),
           ("itemFilter(1).name", "MinPrice"), ("itemFilter(1).value(0)", minV),
           ("itemFilter(1).paramName", "Currency"), ("itemFilter(1).paramValue", c2)] from rfl]
      simp
    · rw [show itemFilterQuery [priceFilter "MaxPrice" maxV (some c1),
          priceFilter "MinPrice" minV none] =
          [("itemFilter(0).name", "MaxPrice"), ("itemFilter(0).value(0)", maxV),
           ("itemFilter(0).paramName", "Currency"), ("itemFilter(0).paramValue", c1),
           ("itemFilter(1).name", "MinPrice"), ("itemFilter(1).value(0)", minV)] from rfl]
      simp
    · rw [show itemFilterQuery [priceFilter "MaxPrice" maxV (some c1),
          priceFilter "MinPrice" minV (some c2)] =
          [("itemFilter(0).name", "MaxPrice"), ("itemFilter(0).value(0)", maxV),
           ("itemFilter(0).paramName", "Currency"), ("itemFilter(0).paramValue", c1),
           ("itemFilter(1).name", "MinPrice"), ("itemFilter(1).value(0)", minV),
           ("itemFilter(1).paramName", "Currency"), ("itemFilter(1).paramValue", c2)] from rfl]
      simp

/-- C3 witness: the concrete pair 10.0 and 5.0 with a USD qualifier on the
MaxPrice member validates in both orders. -/
theorem claim_C3_witness :
    handleAllItemFilters 0
        [priceFilter "MaxPrice" "10.0" (some "USD"), priceFilter "MinPrice" "5.0" none]
        [] [priceFilter "MaxPrice" "10.0" (some "USD"), priceFilter "MinPrice" "5.0" none] =
      .ok () ∧
    handleAllItemFilters 0
        [priceFilter "MinPrice" "5.0" none, priceFilter "MaxPrice" "10.0" (some "USD")]
        [] [priceFilter "MinPrice" "5.0" none, priceFilter "MaxPrice" "10.0" (some "USD")] =
      .ok () :=
  (claim_C3 "10.0" "5.0" ⟨100, -1⟩ ⟨50, -1⟩ (some "USD") none (by decide) (by decide)
      (by decide) (by decide)
      (by intro c hc; simp at hc; subst hc; decide)
      (by intro c hc; simp at hc)).2.1 (by decide)

end EbaySpec
